import Mathlib

/-!
# Verification of the `VideoStreamPlayer` playback-session controller

Shallow embedding of `app/javascript/components/server-components/VideoStreamPlayer.tsx`:
the stall-detection-and-recovery state machine, the local position tracker, the
analytics reporting, and the lodash-throttled position reporter that the component
wires to JW Player events.

Modelling conventions:
* JS numbers used for positions, durations and millisecond timestamps become `Int`
  (the component only compares and subtracts them).
* Player queries (`player.getPlaylistIndex()`, `player.getDuration()`) are values
  reported by the external player, so events carry them as parameters.
* Commands the component issues to the player / analytics collaborators are
  collected in an output list (`Cmd`).  `console.debug` diagnostics are not
  commands and are not modelled.
* `setTimeout` / `clearTimeout` for the stall watchdog are modelled explicitly:
  the runtime set of live (scheduled, not-yet-cancelled) timers is a list of
  `(id, scheduledFireTime)` pairs and `bufferStallCheckTimeout` holds the id of
  the component handle, mirroring the clear-then-set discipline of the source.
-/

namespace VideoStreamPlayer

/-- `latest_media_location` record of a playlist item. -/
structure MediaLocation where
  location : Int
deriving DecidableEq, Repr

/-- A subtitle track entry (`SubtitleFile` in the source). -/
structure SubtitleFile where
  file : String
  label : String
deriving DecidableEq, Repr

/-- A playlist item (`Video` in the source). -/
structure Video where
  sources : List String
  guid : String
  title : String
  tracks : List SubtitleFile
  external_id : String
  latest_media_location : Option MediaLocation
  content_length : Option Int
deriving DecidableEq, Repr

/-- Props of the component that the session handlers read. -/
structure PlayerParams where
  url_redirect_id : String
  purchase_id : Option String
  index_to_play : Nat
deriving DecidableEq, Repr

/-- Payload of `trackMediaLocationChanged` (the remote position report). -/
structure MediaLocationReport where
  urlRedirectId : String
  productFileId : String
  purchaseId : String
  location : Int
deriving DecidableEq, Repr

/-- Payload of `createConsumptionEvent` with `eventType: "watch"`. -/
structure ConsumptionEvent where
  urlRedirectId : String
  productFileId : String
  purchaseId : Option String
deriving DecidableEq, Repr

/-- Commands issued by the session handlers to the player, the throttled
reporter, or the analytics collaborators. -/
inductive Cmd where
  /-- `player.playlistItem(index_to_play)` -/
  | selectItem (idx : Nat)
  /-- `player.load([player.getPlaylistItem()])` — reload of the current item
  with its existing configuration unchanged. -/
  | loadCurrentItemConfig
  /-- `player.play(true)` -/
  | play
  /-- `setTimeout(() => { try { player.seek(position) } catch ... }, delayMs)` -/
  | delaySeek (position : Int) (delayMs : Int)
  /-- a direct `player.seek(position)` -/
  | seek (position : Int)
  /-- `throttledTrackMediaLocation(position)` -/
  | throttleCall (position : Int)
  /-- `throttledTrackMediaLocation.cancel()` -/
  | throttleCancel
  /-- `trackMediaLocationChanged(r)` -/
  | track (r : MediaLocationReport)
  /-- `createConsumptionEvent(e)` -/
  | consumption (e : ConsumptionEvent)
deriving DecidableEq, Repr

/-- `const MAX_RELOAD_ATTEMPTS = 3` (the retry budget). -/
def MAX_RELOAD_ATTEMPTS : Nat := 3

/-- `const BUFFER_STALL_MS = 5000` -/
def BUFFER_STALL_MS : Int := 5000

/-- `const LOCATION_TRACK_EVENT_DELAY_MS = 10_000` -/
def LOCATION_TRACK_EVENT_DELAY_MS : Int := 10000

/-- The mutable session variables captured by the component closures, plus the
explicit model of the runtime live stall timers. -/
structure SessionState where
  playlist : List Video
  lastPlayedId : Option Nat
  isInitialSeekDone : Bool
  lastKnownPosition : Int
  lastKnownDuration : Int
  isBuffering : Bool
  bufferingStartedAt : Int
  consecutiveReloadAttempts : Nat
  /-- the component handle: id of the armed stall timer, if any -/
  bufferStallCheckTimeout : Option Nat
  /-- runtime model: scheduled, not-yet-cancelled stall timers `(id, fireTime)` -/
  liveTimers : List (Nat × Int)
  /-- runtime model: id for the next `setTimeout` -/
  nextTimerId : Nat
  /-- `resumeAt` captured by a registered `player.once("playlistItem", ...)`
  handler from `reloadAndResume`, if one is pending -/
  pendingOnceResume : Option Int
deriving DecidableEq, Repr

/-- Initial values of the session variables. -/
def initialState (playlist : List Video) : SessionState :=
  { playlist := playlist
    lastPlayedId := none
    isInitialSeekDone := false
    lastKnownPosition := 0
    lastKnownDuration := 0
    isBuffering := false
    bufferingStartedAt := 0
    consecutiveReloadAttempts := 0
    bufferStallCheckTimeout := none
    liveTimers := []
    nextTimerId := 0
    pendingOnceResume := none }

/-- `if (bufferStallCheckTimeout) clearTimeout(bufferStallCheckTimeout);` —
removes the timer named by the handle from the runtime live set (the handle itself is
overwritten by the caller). -/
def clearTimeoutIfSet (st : SessionState) : SessionState :=
  match st.bufferStallCheckTimeout with
  | some id => { st with liveTimers := st.liveTimers.filter (fun q => q.1 ≠ id) }
  | none => st

/-- `reloadAndResume` (source lines 89–117).  With the budget exhausted it
returns without commands or state change; otherwise it increments the counter,
cancels the pending throttled report, captures `resumeAt = lastKnownPosition || 0`,
reloads the current item config, and registers a `once("playlistItem")` handler
carrying `resumeAt`. -/
def reloadAndResume (st : SessionState) : SessionState × List Cmd :=
  if st.consecutiveReloadAttempts ≥ MAX_RELOAD_ATTEMPTS then
    (st, [])
  else
    let st1 := { st with consecutiveReloadAttempts := st.consecutiveReloadAttempts + 1 }
    let resumeAt := if st1.lastKnownPosition = 0 then 0 else st1.lastKnownPosition
    ({ st1 with pendingOnceResume := some resumeAt },
     [Cmd.throttleCancel, Cmd.loadCurrentItemConfig])

/-- The `player.once("playlistItem", ...)` callback registered by
`reloadAndResume`: issue `play(true)` and, if `resumeAt > 0`, schedule the
guarded seek after a 250 ms settle delay. -/
def onPlaylistItemOnce (st : SessionState) : SessionState × List Cmd :=
  match st.pendingOnceResume with
  | some resumeAt =>
    ({ st with pendingOnceResume := none },
     Cmd.play :: (if resumeAt > 0 then [Cmd.delaySeek resumeAt 250] else []))
  | none => (st, [])

/-- The body of the 250 ms settle `setTimeout`: `try { player.seek(resumeAt) }
catch (e) { log(...) }`.  `seekResult` is the outcome of the player `seek`
call (which may throw); the surrounding `try`/`catch` turns a thrown error into
a normal return, so the overall outcome of the callback is always `.ok`. -/
def seekSettleCallback (resumeAt : Int) (seekResult : Except String Unit) :
    Except String (List Cmd) :=
  match seekResult with
  | Except.ok _ => Except.ok [Cmd.seek resumeAt]
  | Except.error _ => Except.ok []

/-- `updateLocalMediaLocation` (source lines 119–126), as a pure function of the
session variables it reads.  `idx` is the player-reported playlist index. -/
def updateLocalMediaLocation (playlist : List Video) (idx : Nat)
    (isInitialSeekDone : Bool) (lastPlayedId : Option Nat)
    (position duration : Int) : List Video :=
  match playlist[idx]? with
  | some videoFile =>
    if isInitialSeekDone ∧ lastPlayedId = some idx then
      let location : Int := if position = duration then 0 else position
      playlist.set idx { videoFile with latest_media_location := some { location := location } }
    else playlist
  | none => playlist

/-- `trackMediaLocation` (source lines 128–142): `none` when no report is sent
(anonymous playback or item lookup failure), otherwise the report payload with
the position clamped to `content_length` when known and exceeded. -/
def trackMediaLocation (p : PlayerParams) (playlist : List Video) (idx : Nat)
    (position : Int) : Option MediaLocationReport :=
  match p.purchase_id with
  | some pid =>
    match playlist[idx]? with
    | some videoFile =>
      some { urlRedirectId := p.url_redirect_id
             productFileId := videoFile.external_id
             purchaseId := pid
             location :=
               match videoFile.content_length with
               | some cl => if cl < position then cl else position
               | none => position }
    | none => none
  | none => none

/-- `player.on("ready")`: select the initially requested playlist index. -/
def onReady (p : PlayerParams) (st : SessionState) : SessionState × List Cmd :=
  (st, [Cmd.selectItem p.index_to_play])

/-- `player.on("seek")`: immediate (unthrottled) report, local mirror update,
and `lastKnownPosition := ev.offset`. -/
def onSeek (p : PlayerParams) (idx : Nat) (offset playerDuration : Int)
    (st : SessionState) : SessionState × List Cmd :=
  let cmds :=
    match trackMediaLocation p st.playlist idx offset with
    | some r => [Cmd.track r]
    | none => []
  let playlist :=
    updateLocalMediaLocation st.playlist idx st.isInitialSeekDone st.lastPlayedId
      offset playerDuration
  ({ st with playlist := playlist, lastKnownPosition := offset }, cmds)

/-- `player.on("time")` (source lines 156–168): throttled report, local mirror
update, refresh of last known position/duration, clearing of all buffering
bookkeeping, reset of the retry budget, and cancellation of the stall timer. -/
def onTime (idx : Nat) (position duration : Int) (st : SessionState) :
    SessionState × List Cmd :=
  let playlist :=
    updateLocalMediaLocation st.playlist idx st.isInitialSeekDone st.lastPlayedId
      position duration
  let st1 := clearTimeoutIfSet { st with playlist := playlist }
  ({ st1 with
      lastKnownPosition := position
      lastKnownDuration := duration
      isBuffering := false
      bufferingStartedAt := 0
      consecutiveReloadAttempts := 0
      bufferStallCheckTimeout := none },
   [Cmd.throttleCall position])

/-- `player.on("complete")`: cancel the throttled reporter, then (if the item
exists) send a final report pinned to `content_length` (or the measured
duration) and set the local mirror to completion. -/
def onComplete (p : PlayerParams) (idx : Nat) (playerDuration : Int)
    (st : SessionState) : SessionState × List Cmd :=
  match st.playlist[idx]? with
  | none => (st, [Cmd.throttleCancel])
  | some videoFile =>
    let finalPos : Int :=
      match videoFile.content_length with
      | none => playerDuration
      | some cl => cl
    let trackCmds :=
      match trackMediaLocation p st.playlist idx finalPos with
      | some r => [Cmd.track r]
      | none => []
    let playlist :=
      updateLocalMediaLocation st.playlist idx st.isInitialSeekDone st.lastPlayedId
        playerDuration playerDuration
    ({ st with playlist := playlist }, Cmd.throttleCancel :: trackCmds)

/-- `player.on("play")` (source lines 178–191): on a new item activation, send
the watch consumption event (regardless of `purchase_id`), record the item as
last played and reset the initial-seek gate. -/
def onPlay (p : PlayerParams) (itemId : Nat) (st : SessionState) :
    SessionState × List Cmd :=
  match st.playlist[itemId]? with
  | some videoFile =>
    if st.lastPlayedId ≠ some itemId then
      ({ st with lastPlayedId := some itemId, isInitialSeekDone := false },
       [Cmd.consumption
         { urlRedirectId := p.url_redirect_id
           productFileId := videoFile.external_id
           purchaseId := p.purchase_id }])
    else (st, [])
  | none => (st, [])

/-- `player.on("buffer")` (source lines 194–206): record buffering, cancel any
armed stall timer, and arm a fresh single-shot timer for
`BUFFER_STALL_MS + 50` ms. -/
def onBuffer (now : Int) (st : SessionState) : SessionState × List Cmd :=
  let st1 := clearTimeoutIfSet st
  let id := st1.nextTimerId
  ({ st1 with
      isBuffering := true
      bufferingStartedAt := now
      bufferStallCheckTimeout := some id
      liveTimers := st1.liveTimers ++ [(id, now + BUFFER_STALL_MS + 50)]
      nextTimerId := id + 1 },
   [])

/-- Body of the stall timer (the `setTimeout` callback in the `buffer` handler):
if still buffering and at least `BUFFER_STALL_MS` elapsed since
`bufferingStartedAt`, attempt recovery; either way clear the handle. -/
def stallTimerCallback (now : Int) (st : SessionState) : SessionState × List Cmd :=
  if st.isBuffering = true ∧ now - st.bufferingStartedAt ≥ BUFFER_STALL_MS then
    let r := reloadAndResume st
    ({ r.1 with bufferStallCheckTimeout := none }, r.2)
  else
    ({ st with bufferStallCheckTimeout := none }, [])

/-- `player.on("idle")`: recover when idling before logical completion. -/
def onIdle (st : SessionState) : SessionState × List Cmd :=
  if st.lastKnownDuration > 0 ∧ st.lastKnownPosition < st.lastKnownDuration - 1 then
    reloadAndResume st
  else (st, [])

/-- `player.on("error")`: always attempt recovery. -/
def onError (st : SessionState) : SessionState × List Cmd :=
  reloadAndResume st

/-- `player.on("visualQuality")` (source lines 223–233): unless the initial
seek was already applied for the current item, issue the one-time resume seek
when a recorded location exists and differs from the content length, and mark
the initial seek applied regardless. -/
def onVisualQuality (idx : Nat) (st : SessionState) : SessionState × List Cmd :=
  if st.isInitialSeekDone = true ∧ st.lastPlayedId = some idx then (st, [])
  else
    let cmds :=
      match st.playlist[idx]? with
      | some videoFile =>
        match videoFile.latest_media_location with
        | some lml =>
          -- `lml.location !== videoFile.content_length`: a number is always
          -- distinct from `null`, hence the seek always fires when
          -- `content_length` is absent.
          match videoFile.content_length with
          | some cl => if lml.location ≠ cl then [Cmd.seek lml.location] else []
          | none => [Cmd.seek lml.location]
        | none => []
      | none => []
    ({ st with isInitialSeekDone := true }, cmds)

/-- Player-emitted events (and timer firings) driving the session machine.
Indices, positions and durations are the values the external player reports;
`now` is the wall-clock time at delivery. -/
inductive PEvent where
  | ready
  | seek (idx : Nat) (offset playerDuration : Int)
  | time (idx : Nat) (position duration : Int)
  | complete (idx : Nat) (playerDuration : Int)
  | play (idx : Nat)
  | buffer (now : Int)
  /-- firing of the scheduled stall timer `id` at its scheduled time `now`;
  a cancelled timer (not in `liveTimers`) never fires -/
  | stallTimerFire (id : Nat) (now : Int)
  | idle
  | error
  | visualQuality (idx : Nat)
  /-- the `playlistItem` signal consumed by a registered `once` handler -/
  | playlistItemReady
deriving DecidableEq, Repr

/-- Whether an event is a fresh position update (`"time"`). -/
def PEvent.isTimeEvent : PEvent → Bool
  | PEvent.time _ _ _ => true
  | _ => false

/-- One dispatch of the event table. -/
def step (p : PlayerParams) (st : SessionState) : PEvent → SessionState × List Cmd
  | PEvent.ready => onReady p st
  | PEvent.seek idx offset playerDuration => onSeek p idx offset playerDuration st
  | PEvent.time idx position duration => onTime idx position duration st
  | PEvent.complete idx playerDuration => onComplete p idx playerDuration st
  | PEvent.play idx => onPlay p idx st
  | PEvent.buffer now => onBuffer now st
  | PEvent.stallTimerFire id now =>
    if (id, now) ∈ st.liveTimers then
      stallTimerCallback now
        { st with liveTimers := st.liveTimers.filter (fun q => q ≠ (id, now)) }
    else (st, [])
  | PEvent.idle => onIdle st
  | PEvent.error => onError st
  | PEvent.visualQuality idx => onVisualQuality idx st
  | PEvent.playlistItemReady => onPlaylistItemOnce st

/-- Run-to-completion execution of an event trace, accumulating all issued
commands. -/
def run (p : PlayerParams) (st : SessionState) : List PEvent → SessionState × List Cmd
  | [] => (st, [])
  | e :: rest =>
    let r1 := step p st e
    let r2 := run p r1.1 rest
    (r2.1, r1.2 ++ r2.2)

/-- Number of item-reload commands in an output trace. -/
def countLoads (cmds : List Cmd) : Nat :=
  (cmds.filter (fun c => c = Cmd.loadCurrentItemConfig)).length

end VideoStreamPlayer

/-!
## The throttled position reporter

`throttledTrackMediaLocation = throttle(trackMediaLocation, LOCATION_TRACK_EVENT_DELAY_MS)`
uses the lodash `throttle` with default options, i.e. `debounce` specialised with
`leading = true`, `trailing = true`, `maxWait = wait` (`maxing = true`).  The
model below is a direct translation of the lodash 4.17 `debounce` under that
specialisation, with `wait = 10000` ms.  A timer handle is modelled by its
scheduled fire time; emissions are `(time, position)` pairs.
-/

namespace Throttle

/-- `wait` (= `maxWait`) of the throttled reporter: `LOCATION_TRACK_EVENT_DELAY_MS`. -/
def wait : Int := VideoStreamPlayer.LOCATION_TRACK_EVENT_DELAY_MS

/-- The closure variables of lodash `debounce`: `lastArgs`, `timerId` (modelled
by the scheduled fire time), `lastCallTime`, `lastInvokeTime`. -/
structure State where
  lastArgs : Option Int
  timerId : Option Int
  lastCallTime : Option Int
  lastInvokeTime : Int
deriving DecidableEq, Repr

/-- Fresh throttle state (`lastInvokeTime = 0`, everything else unset). -/
def initial : State :=
  { lastArgs := none, timerId := none, lastCallTime := none, lastInvokeTime := 0 }

/-- lodash `shouldInvoke(time)` with `maxing = true`, `maxWait = wait`:
first call ever, or `wait` elapsed since the last call, or time moved
backwards, or `maxWait` elapsed since the last invocation. -/
def shouldInvoke (s : State) (t : Int) : Bool :=
  match s.lastCallTime with
  | none => true
  | some lc => decide (t - lc ≥ wait) || decide (t - lc < 0) ||
               decide (t - s.lastInvokeTime ≥ wait)

/-- lodash `invokeFunc(time)`: emit the stored arguments, clear them, record
the invoke time. -/
def invokeFunc (t : Int) (s : State) : State × List (Int × Int) :=
  match s.lastArgs with
  | some a => ({ s with lastArgs := none, lastInvokeTime := t }, [(t, a)])
  | none => ({ s with lastArgs := none, lastInvokeTime := t }, [])

/-- lodash `leadingEdge(time)` with `leading = true`: start the timer for the
trailing edge and invoke immediately. -/
def leadingEdge (t : Int) (s : State) : State × List (Int × Int) :=
  invokeFunc t { s with lastInvokeTime := t, timerId := some (t + wait) }

/-- lodash `remainingWait(time)` with `maxing = true`.  (`lastCallTime` is
always set on this path; `getD 0` totalises the unreachable case.) -/
def remainingWait (s : State) (t : Int) : Int :=
  min (wait - (t - s.lastCallTime.getD 0)) (wait - (t - s.lastInvokeTime))

/-- lodash `trailingEdge(time)` with `trailing = true`: drop the timer and
invoke with the pending arguments, if any. -/
def trailingEdge (t : Int) (s : State) : State × List (Int × Int) :=
  let s1 := { s with timerId := none }
  match s1.lastArgs with
  | some _ => invokeFunc t s1
  | none => ({ s1 with lastArgs := none }, [])

/-- A call of the throttled function at time `t` with argument `pos`
(lodash `debounced`). -/
def call (t : Int) (pos : Int) (s : State) : State × List (Int × Int) :=
  let isInvoking := shouldInvoke s t
  let s1 := { s with lastArgs := some pos, lastCallTime := some t }
  if isInvoking then
    match s1.timerId with
    | none => leadingEdge t s1
    | some _ =>
      -- the `maxing` branch: restart the timer and invoke now
      invokeFunc t { s1 with timerId := some (t + wait) }
  else
    match s1.timerId with
    | none => ({ s1 with timerId := some (t + wait) }, [])
    | some _ => (s1, [])

/-- Firing of the scheduled timer at its scheduled time (lodash
`timerExpired`); a cleared or rescheduled timer (scheduled time ≠ `t`) never
fires. -/
def fire (t : Int) (s : State) : State × List (Int × Int) :=
  if s.timerId = some t then
    if shouldInvoke s t then trailingEdge t s
    else ({ s with timerId := some (t + remainingWait s t) }, [])
  else (s, [])

/-- lodash `cancel()`: drop the timer and all pending bookkeeping. -/
def cancel (_s : State) : State × List (Int × Int) :=
  ({ lastArgs := none, timerId := none, lastCallTime := none, lastInvokeTime := 0 }, [])

/-- Inputs to the throttled reporter: calls, timer firings, cancellations. -/
inductive TEvent where
  | call (t : Int) (pos : Int)
  | fire (t : Int)
  | cancel
deriving DecidableEq, Repr

/-- One input step. -/
def stepT (s : State) : TEvent → State × List (Int × Int)
  | TEvent.call t pos => call t pos s
  | TEvent.fire t => fire t s
  | TEvent.cancel => cancel s

/-- Run an input trace, accumulating emissions. -/
def runT (s : State) : List TEvent → State × List (Int × Int)
  | [] => (s, [])
  | e :: rest =>
    let r1 := stepT s e
    let r2 := runT r1.1 rest
    (r2.1, r1.2 ++ r2.2)

end Throttle

/-!
## Helper lemmas about the session machine
-/

namespace VideoStreamPlayer

@[simp] theorem clearTimeoutIfSet_counter (st : SessionState) :
    (clearTimeoutIfSet st).consecutiveReloadAttempts = st.consecutiveReloadAttempts := by
  unfold clearTimeoutIfSet; split <;> rfl

@[simp] theorem clearTimeoutIfSet_handle (st : SessionState) :
    (clearTimeoutIfSet st).bufferStallCheckTimeout = st.bufferStallCheckTimeout := by
  unfold clearTimeoutIfSet; split <;> rfl

@[simp] theorem clearTimeoutIfSet_nextTimerId (st : SessionState) :
    (clearTimeoutIfSet st).nextTimerId = st.nextTimerId := by
  unfold clearTimeoutIfSet; split <;> rfl

@[simp] theorem clearTimeoutIfSet_isBuffering (st : SessionState) :
    (clearTimeoutIfSet st).isBuffering = st.isBuffering := by
  unfold clearTimeoutIfSet; split <;> rfl

@[simp] theorem clearTimeoutIfSet_bufferingStartedAt (st : SessionState) :
    (clearTimeoutIfSet st).bufferingStartedAt = st.bufferingStartedAt := by
  unfold clearTimeoutIfSet; split <;> rfl

@[simp] theorem clearTimeoutIfSet_lastKnownPosition (st : SessionState) :
    (clearTimeoutIfSet st).lastKnownPosition = st.lastKnownPosition := by
  unfold clearTimeoutIfSet; split <;> rfl

theorem reloadAndResume_counter_le (st : SessionState)
    (h : st.consecutiveReloadAttempts ≤ MAX_RELOAD_ATTEMPTS) :
    (reloadAndResume st).1.consecutiveReloadAttempts ≤ MAX_RELOAD_ATTEMPTS := by
  unfold reloadAndResume MAX_RELOAD_ATTEMPTS at *
  split
  · exact h
  · next hlt => simp only []; omega

/-- The retry counter after one event, relative to before. -/
theorem step_counter_le (p : PlayerParams) (e : PEvent) (st : SessionState)
    (h : st.consecutiveReloadAttempts ≤ MAX_RELOAD_ATTEMPTS) :
    (step p st e).1.consecutiveReloadAttempts ≤ MAX_RELOAD_ATTEMPTS := by
  cases e with
  | ready => exact h
  | seek idx offset playerDuration => simpa [step, onSeek] using h
  | time idx position duration => simp [step, onTime]
  | complete idx playerDuration =>
    simp only [step, onComplete]
    split <;> simpa using h
  | play idx =>
    simp only [step, onPlay]
    split
    · split <;> simpa using h
    · simpa using h
  | buffer now => simpa [step, onBuffer] using h
  | stallTimerFire id now =>
    simp only [step]
    split
    · unfold stallTimerCallback
      split
      · simpa using reloadAndResume_counter_le _ (by simpa using h)
      · simpa using h
    · simpa using h
  | idle =>
    simp only [step, onIdle]
    split
    · exact reloadAndResume_counter_le _ h
    · simpa using h
  | error => exact reloadAndResume_counter_le _ h
  | visualQuality idx =>
    simp only [step, onVisualQuality]
    split <;> simpa using h
  | playlistItemReady =>
    simp only [step, onPlaylistItemOnce]
    split <;> simpa using h

theorem run_counter_le (p : PlayerParams) (tr : List PEvent) (st : SessionState)
    (h : st.consecutiveReloadAttempts ≤ MAX_RELOAD_ATTEMPTS) :
    (run p st tr).1.consecutiveReloadAttempts ≤ MAX_RELOAD_ATTEMPTS := by
  induction tr generalizing st with
  | nil => exact h
  | cons e rest ih =>
    simp only [run]
    exact ih _ (step_counter_le p e st h)

theorem countLoads_append (a b : List Cmd) :
    countLoads (a ++ b) = countLoads a + countLoads b := by
  simp [countLoads, List.filter_append]

theorem countLoads_eq_zero {l : List Cmd}
    (h : Cmd.loadCurrentItemConfig ∉ l) : countLoads l = 0 := by
  induction l with
  | nil => rfl
  | cons a l ih =>
    simp only [List.mem_cons, not_or] at h
    unfold countLoads at *
    rw [List.filter_cons]
    split
    · next hd =>
      have hd2 : a = Cmd.loadCurrentItemConfig := by simpa using hd
      exact absurd hd2.symm h.1
    · exact ih h.2

/-- The quality-change handler issues at most a single seek command. -/
theorem onVisualQuality_snd (idx : Nat) (st : SessionState) :
    (onVisualQuality idx st).2 = [] ∨
    ∃ l, (onVisualQuality idx st).2 = [Cmd.seek l] := by
  unfold onVisualQuality
  split
  · exact Or.inl rfl
  · rcases hv : st.playlist[idx]? with _ | v
    · simp [hv]
    · rcases hl : v.latest_media_location with _ | lml
      · simp [hv, hl]
      · rcases hc : v.content_length with _ | cl
        · simp only [hv, hl, hc]
          exact Or.inr ⟨_, rfl⟩
        · simp only [hv, hl, hc]
          split
          · exact Or.inr ⟨_, rfl⟩
          · exact Or.inl rfl

/-- Every reload command coincides with one increment of the retry counter. -/
theorem reloadAndResume_counts (st : SessionState) :
    countLoads (reloadAndResume st).2 + st.consecutiveReloadAttempts =
      (reloadAndResume st).1.consecutiveReloadAttempts := by
  unfold reloadAndResume
  split
  · simp [countLoads]
  · simp only []
    show countLoads [Cmd.throttleCancel, Cmd.loadCurrentItemConfig] + _ = _
    have : countLoads [Cmd.throttleCancel, Cmd.loadCurrentItemConfig] = 1 := rfl
    omega

/-- Outside `time` events, the number of reload commands issued by one step
equals the increase of the retry counter. -/
theorem step_loads (p : PlayerParams) (e : PEvent) (st : SessionState)
    (h : e.isTimeEvent = false) :
    countLoads (step p st e).2 + st.consecutiveReloadAttempts =
      (step p st e).1.consecutiveReloadAttempts := by
  cases e with
  | ready => simp [step, onReady, countLoads]
  | seek idx offset playerDuration =>
    simp only [step, onSeek]
    split <;> simp [countLoads]
  | time idx position duration => simp [PEvent.isTimeEvent] at h
  | complete idx playerDuration =>
    simp only [step, onComplete]
    split
    · simp [countLoads]
    · split <;> simp [countLoads]
  | play idx =>
    simp only [step, onPlay]
    split
    · split <;> simp [countLoads]
    · simp [countLoads]
  | buffer now => simp [step, onBuffer, countLoads]
  | stallTimerFire id now =>
    simp only [step]
    split
    · unfold stallTimerCallback
      split
      · simpa using reloadAndResume_counts _
      · simp [countLoads]
    · simp [countLoads]
  | idle =>
    simp only [step, onIdle]
    split
    · exact reloadAndResume_counts _
    · simp [countLoads]
  | error => exact reloadAndResume_counts _
  | visualQuality idx =>
    simp only [step]
    have hz : countLoads (onVisualQuality idx st).2 = 0 := by
      rcases onVisualQuality_snd idx st with hs | ⟨l, hs⟩ <;> rw [hs] <;> rfl
    have hc : (onVisualQuality idx st).1.consecutiveReloadAttempts =
        st.consecutiveReloadAttempts := by
      unfold onVisualQuality
      split <;> rfl
    omega
  | playlistItemReady =>
    simp only [step, onPlaylistItemOnce]
    split
    · split <;> simp [countLoads]
    · simp [countLoads]

theorem run_loads (p : PlayerParams) (tr : List PEvent) (st : SessionState)
    (h : ∀ e ∈ tr, e.isTimeEvent = false) :
    countLoads (run p st tr).2 + st.consecutiveReloadAttempts =
      (run p st tr).1.consecutiveReloadAttempts := by
  induction tr generalizing st with
  | nil => simp [run, countLoads]
  | cons e rest ih =>
    simp only [run, countLoads_append]
    have h1 := step_loads p e st (h e (by simp))
    have h2 := ih (step p st e).1 (fun x hx => h x (by simp [hx]))
    omega

-- Concrete fixtures used by the witness theorems.
namespace Fixtures

def vid1 : Video :=
  { sources := ["https://cdn/v1"], guid := "g1", title := "Video one",
    tracks := [], external_id := "file1",
    latest_media_location := some { location := 7 }, content_length := some 100 }

def vid2 : Video :=
  { sources := ["https://cdn/v2"], guid := "g2", title := "Video two",
    tracks := [], external_id := "file2",
    latest_media_location := none, content_length := none }

def pA : PlayerParams :=
  { url_redirect_id := "redir", purchase_id := some "purch", index_to_play := 0 }

def pAnon : PlayerParams :=
  { url_redirect_id := "redir", purchase_id := none, index_to_play := 0 }

def st0 : SessionState := initialState [vid1, vid2]

def stMax : SessionState := { st0 with consecutiveReloadAttempts := 3 }

def stPos : SessionState := { st0 with lastKnownPosition := 58 }

def stPend : SessionState := { st0 with pendingOnceResume := some 58 }

def stPlayed : SessionState := { st0 with lastPlayedId := some 0 }

def stSeekDone : SessionState :=
  { st0 with isInitialSeekDone := true, lastPlayedId := some 0 }

end Fixtures

end VideoStreamPlayer

/-!
## Claim theorems
-/

namespace VideoStreamPlayer

/-- C1: for every sequence of player events, the recovery counter
`consecutiveReloadAttempts` never exceeds `MAX_RELOAD_ATTEMPTS = 3`;
`reloadAndResume` invoked when the counter is already at the budget returns
without issuing any command and without changing any state; and along any trace
with no intervening fresh position-update (`time`) event at most 3 reloads are
issued. -/
theorem retry_budget_bounded (p : PlayerParams) (playlist0 : List Video)
    (tr : List PEvent) :
    (run p (initialState playlist0) tr).1.consecutiveReloadAttempts ≤ MAX_RELOAD_ATTEMPTS ∧
    (∀ st : SessionState, MAX_RELOAD_ATTEMPTS ≤ st.consecutiveReloadAttempts →
      reloadAndResume st = (st, [])) ∧
    ((∀ e ∈ tr, e.isTimeEvent = false) →
      countLoads (run p (initialState playlist0) tr).2 ≤ MAX_RELOAD_ATTEMPTS) := by
  refine ⟨run_counter_le p tr _ (Nat.zero_le _), ?_, ?_⟩
  · intro st h
    unfold reloadAndResume
    rw [if_pos h]
  · intro h
    have h2 := run_loads p tr (initialState playlist0) h
    have h3 := run_counter_le p tr (initialState playlist0) (Nat.zero_le _)
    have h0 : (initialState playlist0).consecutiveReloadAttempts = 0 := rfl
    omega

/-- The watchdog invariant: the component handle and the runtime live
timers agree, and there is at most one live timer. -/
def TimerInv (st : SessionState) : Prop :=
  (st.bufferStallCheckTimeout = none ∧ st.liveTimers = []) ∨
  (∃ id tm, st.bufferStallCheckTimeout = some id ∧ st.liveTimers = [(id, tm)])

theorem TimerInv_initial (playlist0 : List Video) : TimerInv (initialState playlist0) :=
  Or.inl ⟨rfl, rfl⟩

theorem clearTimeoutIfSet_liveTimers {st : SessionState} (h : TimerInv st) :
    (clearTimeoutIfSet st).liveTimers = [] := by
  rcases h with ⟨h1, h2⟩ | ⟨id, tm, h1, h2⟩ <;> unfold clearTimeoutIfSet <;>
    rw [h1] <;> simp [h2]

theorem reloadAndResume_handle (st : SessionState) :
    (reloadAndResume st).1.bufferStallCheckTimeout = st.bufferStallCheckTimeout := by
  unfold reloadAndResume
  split <;> rfl

theorem reloadAndResume_liveTimers (st : SessionState) :
    (reloadAndResume st).1.liveTimers = st.liveTimers := by
  unfold reloadAndResume
  split <;> rfl

/-- Every event handler preserves the watchdog invariant. -/
theorem step_TimerInv (p : PlayerParams) (e : PEvent) (st : SessionState)
    (h : TimerInv st) : TimerInv (step p st e).1 := by
  cases e with
  | ready => exact h
  | seek idx offset playerDuration =>
    rcases h with ⟨h1, h2⟩ | ⟨id, tm, h1, h2⟩
    · exact Or.inl ⟨by simpa [step, onSeek] using h1, by simpa [step, onSeek] using h2⟩
    · exact Or.inr ⟨id, tm, by simpa [step, onSeek] using h1, by simpa [step, onSeek] using h2⟩
  | time idx position duration =>
    refine Or.inl ⟨rfl, ?_⟩
    show (clearTimeoutIfSet _).liveTimers = []
    apply clearTimeoutIfSet_liveTimers
    rcases h with ⟨h1, h2⟩ | ⟨id, tm, h1, h2⟩
    · exact Or.inl ⟨h1, h2⟩
    · exact Or.inr ⟨id, tm, h1, h2⟩
  | complete idx playerDuration =>
    simp only [step, onComplete]
    split
    · exact h
    · rcases h with ⟨h1, h2⟩ | ⟨id, tm, h1, h2⟩
      · exact Or.inl ⟨by simpa using h1, by simpa using h2⟩
      · exact Or.inr ⟨id, tm, by simpa using h1, by simpa using h2⟩
  | play idx =>
    simp only [step, onPlay]
    split
    · split
      · rcases h with ⟨h1, h2⟩ | ⟨id, tm, h1, h2⟩
        · exact Or.inl ⟨by simpa using h1, by simpa using h2⟩
        · exact Or.inr ⟨id, tm, by simpa using h1, by simpa using h2⟩
      · exact h
    · exact h
  | buffer now =>
    refine Or.inr ⟨st.nextTimerId, now + BUFFER_STALL_MS + 50, ?_, ?_⟩
    · simp [step, onBuffer]
    · have hl := clearTimeoutIfSet_liveTimers h
      simp [step, onBuffer, hl]
  | stallTimerFire id now =>
    simp only [step]
    split
    · next hmem =>
      have hfil : (st.liveTimers.filter (fun q => q ≠ (id, now))) = [] := by
        rcases h with ⟨h1, h2⟩ | ⟨id0, tm, h1, h2⟩
        · simp [h2]
        · rw [h2] at hmem ⊢
          simp only [List.mem_singleton] at hmem
          simp [hmem]
      unfold stallTimerCallback
      split
      · refine Or.inl ⟨rfl, ?_⟩
        show (reloadAndResume _).1.liveTimers = []
        rw [reloadAndResume_liveTimers]
        exact hfil
      · exact Or.inl ⟨rfl, hfil⟩
    · exact h
  | idle =>
    simp only [step, onIdle]
    split
    · rcases h with ⟨h1, h2⟩ | ⟨id, tm, h1, h2⟩
      · exact Or.inl ⟨by rw [reloadAndResume_handle]; exact h1,
                      by rw [reloadAndResume_liveTimers]; exact h2⟩
      · exact Or.inr ⟨id, tm, by rw [reloadAndResume_handle]; exact h1,
                      by rw [reloadAndResume_liveTimers]; exact h2⟩
    · exact h
  | error =>
    show TimerInv (reloadAndResume st).1
    rcases h with ⟨h1, h2⟩ | ⟨id, tm, h1, h2⟩
    · exact Or.inl ⟨by rw [reloadAndResume_handle]; exact h1,
                    by rw [reloadAndResume_liveTimers]; exact h2⟩
    · exact Or.inr ⟨id, tm, by rw [reloadAndResume_handle]; exact h1,
                    by rw [reloadAndResume_liveTimers]; exact h2⟩
  | visualQuality idx =>
    simp only [step, onVisualQuality]
    split
    · exact h
    · rcases h with ⟨h1, h2⟩ | ⟨id, tm, h1, h2⟩
      · exact Or.inl ⟨by simpa using h1, by simpa using h2⟩
      · exact Or.inr ⟨id, tm, by simpa using h1, by simpa using h2⟩
  | playlistItemReady =>
    simp only [step, onPlaylistItemOnce]
    split
    · rcases h with ⟨h1, h2⟩ | ⟨id, tm, h1, h2⟩
      · exact Or.inl ⟨by simpa using h1, by simpa using h2⟩
      · exact Or.inr ⟨id, tm, by simpa using h1, by simpa using h2⟩
    · exact h

theorem run_TimerInv (p : PlayerParams) (tr : List PEvent) (st : SessionState)
    (h : TimerInv st) : TimerInv (run p st tr).1 := by
  induction tr generalizing st with
  | nil => exact h
  | cons e rest ih =>
    simp only [run]
    exact ih _ (step_TimerInv p e st h)

/-- The recovery commands depend only on the retry counter. -/
theorem reloadAndResume_snd (st : SessionState) :
    (reloadAndResume st).2 =
      if MAX_RELOAD_ATTEMPTS ≤ st.consecutiveReloadAttempts then []
      else [Cmd.throttleCancel, Cmd.loadCurrentItemConfig] := by
  unfold reloadAndResume
  split <;> rfl

theorem stallTimerCallback_stall {st : SessionState} {now : Int}
    (hb : st.isBuffering = true)
    (hel : now - st.bufferingStartedAt ≥ BUFFER_STALL_MS) :
    stallTimerCallback now st =
      ({ (reloadAndResume st).1 with bufferStallCheckTimeout := none },
       (reloadAndResume st).2) := by
  unfold stallTimerCallback
  rw [if_pos ⟨hb, hel⟩]

theorem stallTimerCallback_cleared {st : SessionState} {now : Int}
    (hb : st.isBuffering = false) :
    stallTimerCallback now st = ({ st with bufferStallCheckTimeout := none }, []) := by
  unfold stallTimerCallback
  rw [if_neg (by simp [hb])]

theorem onBuffer_fields (now : Int) (st : SessionState) :
    (onBuffer now st).1.isBuffering = true ∧
    (onBuffer now st).1.bufferingStartedAt = now ∧
    (onBuffer now st).1.bufferStallCheckTimeout = some st.nextTimerId ∧
    (onBuffer now st).1.consecutiveReloadAttempts = st.consecutiveReloadAttempts := by
  refine ⟨rfl, rfl, by simp [onBuffer], by simp [onBuffer]⟩

/-- Witness for C1 at a concrete playlist, a trace of four consecutive player
errors, and a state with the budget exhausted. -/
theorem retry_budget_bounded_witness :
    (run Fixtures.pA (initialState [Fixtures.vid1])
        [PEvent.error, PEvent.error, PEvent.error, PEvent.error]).1.consecutiveReloadAttempts
        ≤ MAX_RELOAD_ATTEMPTS ∧
    reloadAndResume Fixtures.stMax = (Fixtures.stMax, []) ∧
    countLoads (run Fixtures.pA (initialState [Fixtures.vid1])
        [PEvent.error, PEvent.error, PEvent.error, PEvent.error]).2 ≤ MAX_RELOAD_ATTEMPTS := by
  obtain ⟨h1, h2, h3⟩ := retry_budget_bounded Fixtures.pA [Fixtures.vid1]
    [PEvent.error, PEvent.error, PEvent.error, PEvent.error]
  exact ⟨h1, h2 Fixtures.stMax (by decide), h3 (by decide)⟩

/-- C2: arming the watchdog on a `buffer` event at time `t` and letting its
single-shot timer fire at its scheduled time `t + BUFFER_STALL_MS + 50` (with
buffering uninterrupted in between) makes the arm-then-fire cycle invoke
`reloadAndResume` exactly once — the commands of the cycle are exactly those of recovery;
a firing in a state where buffering was already cleared performs no recovery
and only clears the timer handle; and after a `time` event the timer was
cancelled, so any subsequent firing is a complete no-op. -/
theorem stall_timer_fire_behavior (p : PlayerParams) :
    (∀ (st : SessionState) (t : Int), TimerInv st →
      (run p st [PEvent.buffer t,
                 PEvent.stallTimerFire st.nextTimerId (t + BUFFER_STALL_MS + 50)]).2 =
        (reloadAndResume (onBuffer t st).1).2) ∧
    (∀ (st : SessionState) (now : Int), st.isBuffering = false →
      stallTimerCallback now st = ({ st with bufferStallCheckTimeout := none }, [])) ∧
    (∀ (st : SessionState) (idx : Nat) (position duration : Int) (id : Nat) (now : Int),
      TimerInv st →
      step p (onTime idx position duration st).1 (PEvent.stallTimerFire id now) =
        ((onTime idx position duration st).1, [])) := by
  refine ⟨?_, fun st now hb => stallTimerCallback_cleared hb, ?_⟩
  · intro st t h
    have hlive : (onBuffer t st).1.liveTimers =
        [(st.nextTimerId, t + BUFFER_STALL_MS + 50)] := by
      have hl := clearTimeoutIfSet_liveTimers h
      simp [onBuffer, hl]
    obtain ⟨hb, hat, _, hca⟩ := onBuffer_fields t st
    have hstep1 : step p st (PEvent.buffer t) = ((onBuffer t st).1, []) := rfl
    have hmem : (st.nextTimerId, t + BUFFER_STALL_MS + 50) ∈ (onBuffer t st).1.liveTimers := by
      rw [hlive]; exact List.mem_singleton.mpr rfl
    have hstep2 : step p (onBuffer t st).1
        (PEvent.stallTimerFire st.nextTimerId (t + BUFFER_STALL_MS + 50)) =
        stallTimerCallback (t + BUFFER_STALL_MS + 50)
          { (onBuffer t st).1 with
              liveTimers := (onBuffer t st).1.liveTimers.filter
                (fun q => q ≠ (st.nextTimerId, t + BUFFER_STALL_MS + 50)) } := by
      simp only [step]
      rw [if_pos hmem]
    have hcb := @stallTimerCallback_stall
      { (onBuffer t st).1 with
          liveTimers := (onBuffer t st).1.liveTimers.filter
            (fun q => q ≠ (st.nextTimerId, t + BUFFER_STALL_MS + 50)) }
      (t + BUFFER_STALL_MS + 50) (by simpa using hb)
      (by rw [show ({ (onBuffer t st).1 with
            liveTimers := (onBuffer t st).1.liveTimers.filter
              (fun q => q ≠ (st.nextTimerId, t + BUFFER_STALL_MS + 50)) } :
            SessionState).bufferingStartedAt = t from hat]
          unfold BUFFER_STALL_MS
          omega)
    simp only [run, hstep1, hstep2, hcb, List.nil_append, List.append_nil]
    rw [reloadAndResume_snd, reloadAndResume_snd]
  · intro st idx position duration id now h
    have hlive : (onTime idx position duration st).1.liveTimers = [] := by
      show (clearTimeoutIfSet _).liveTimers = []
      apply clearTimeoutIfSet_liveTimers
      rcases h with ⟨h1, h2⟩ | ⟨id0, tm, h1, h2⟩
      · exact Or.inl ⟨h1, h2⟩
      · exact Or.inr ⟨id0, tm, h1, h2⟩
    simp only [step]
    rw [if_neg (by rw [hlive]; simp)]

/-- Witness for C2 with a fresh session, arm at `t = 100` (so the timer fires
at `5150`), a buffering-cleared state, and a post-`time` firing. -/
theorem stall_timer_fire_behavior_witness :
    (run Fixtures.pA Fixtures.st0 [PEvent.buffer 100,
        PEvent.stallTimerFire Fixtures.st0.nextTimerId (100 + BUFFER_STALL_MS + 50)]).2 =
      (reloadAndResume (onBuffer 100 Fixtures.st0).1).2 ∧
    stallTimerCallback 42 Fixtures.st0 =
      ({ Fixtures.st0 with bufferStallCheckTimeout := none }, []) ∧
    step Fixtures.pA (onTime 0 1 2 Fixtures.st0).1 (PEvent.stallTimerFire 0 99) =
      ((onTime 0 1 2 Fixtures.st0).1, []) := by
  obtain ⟨h1, h2, h3⟩ := stall_timer_fire_behavior Fixtures.pA
  exact ⟨h1 Fixtures.st0 100 (Or.inl ⟨rfl, rfl⟩), h2 Fixtures.st0 42 rfl,
    h3 Fixtures.st0 0 1 2 0 99 (Or.inl ⟨rfl, rfl⟩)⟩

/-- C3: at most one stall-detection timer is live at any instant along every
event trace; under the watchdog invariant a new `buffer` event cancels any
existing timer before arming exactly one fresh timer (last buffering event
wins), and a `time` event cancels the live timer and clears the handle. -/
theorem single_live_stall_timer (p : PlayerParams) (playlist0 : List Video)
    (tr : List PEvent) :
    (run p (initialState playlist0) tr).1.liveTimers.length ≤ 1 ∧
    (∀ (st : SessionState) (now : Int), TimerInv st →
      (onBuffer now st).1.liveTimers =
        [(st.nextTimerId, now + BUFFER_STALL_MS + 50)] ∧
      (onBuffer now st).1.bufferStallCheckTimeout = some st.nextTimerId) ∧
    (∀ (st : SessionState) (idx : Nat) (position duration : Int), TimerInv st →
      (onTime idx position duration st).1.liveTimers = [] ∧
      (onTime idx position duration st).1.bufferStallCheckTimeout = none) := by
  refine ⟨?_, ?_, ?_⟩
  · rcases run_TimerInv p tr _ (TimerInv_initial playlist0) with ⟨h1, h2⟩ | ⟨id, tm, h1, h2⟩ <;>
      simp [h2]
  · intro st now h
    refine ⟨?_, by simp [onBuffer]⟩
    have hl := clearTimeoutIfSet_liveTimers h
    simp [onBuffer, hl]
  · intro st idx position duration h
    refine ⟨?_, rfl⟩
    show (clearTimeoutIfSet _).liveTimers = []
    apply clearTimeoutIfSet_liveTimers
    rcases h with ⟨h1, h2⟩ | ⟨id, tm, h1, h2⟩
    · exact Or.inl ⟨h1, h2⟩
    · exact Or.inr ⟨id, tm, h1, h2⟩

/-- Witness for C3 with a concrete double-buffer trace and concrete `buffer`
and `time` steps from the fresh session state. -/
theorem single_live_stall_timer_witness :
    (run Fixtures.pA (initialState [Fixtures.vid1])
        [PEvent.buffer 0, PEvent.buffer 10]).1.liveTimers.length ≤ 1 ∧
    ((onBuffer 5 Fixtures.st0).1.liveTimers =
        [(Fixtures.st0.nextTimerId, 5 + BUFFER_STALL_MS + 50)] ∧
      (onBuffer 5 Fixtures.st0).1.bufferStallCheckTimeout = some Fixtures.st0.nextTimerId) ∧
    ((onTime 0 1 2 Fixtures.st0).1.liveTimers = [] ∧
      (onTime 0 1 2 Fixtures.st0).1.bufferStallCheckTimeout = none) := by
  obtain ⟨h1, h2, h3⟩ := single_live_stall_timer Fixtures.pA [Fixtures.vid1]
    [PEvent.buffer 0, PEvent.buffer 10]
  exact ⟨h1, h2 Fixtures.st0 5 (Or.inl ⟨rfl, rfl⟩), h3 Fixtures.st0 0 1 2 (Or.inl ⟨rfl, rfl⟩)⟩

/-- C4: with the retry budget not exhausted, `reloadAndResume` increments the
counter, cancels the pending throttled report, captures
`resumeAt = lastKnownPosition || 0`, reloads the current item with its existing
configuration unchanged, and registers the once-handler; the next item-ready
signal then issues `play` and, iff `resumeAt > 0`, a seek to `resumeAt` after a
250 ms settle delay; and the settle callback catches a seek failure, never
propagating it out of the recovery path. -/
theorem reloadAndResume_recovery_spec (p : PlayerParams) :
    (∀ st : SessionState, st.consecutiveReloadAttempts < MAX_RELOAD_ATTEMPTS →
      reloadAndResume st =
        ({ st with
            consecutiveReloadAttempts := st.consecutiveReloadAttempts + 1
            pendingOnceResume :=
              some (if st.lastKnownPosition = 0 then 0 else st.lastKnownPosition) },
         [Cmd.throttleCancel, Cmd.loadCurrentItemConfig])) ∧
    (∀ (st : SessionState) (r : Int), st.pendingOnceResume = some r →
      step p st PEvent.playlistItemReady =
        ({ st with pendingOnceResume := none },
         Cmd.play :: (if r > 0 then [Cmd.delaySeek r 250] else []))) ∧
    (∀ (r : Int) (res : Except String Unit), (seekSettleCallback r res).isOk = true) ∧
    (∀ r : Int, seekSettleCallback r (Except.ok ()) = Except.ok [Cmd.seek r]) := by
  refine ⟨?_, ?_, ?_, ?_⟩
  · intro st h
    unfold reloadAndResume
    rw [if_neg (Nat.not_le.mpr h)]
  · intro st r h
    show onPlaylistItemOnce st = _
    unfold onPlaylistItemOnce
    rw [h]
  · intro r res
    cases res <;> rfl
  · intro r
    rfl

/-- Witness for C4 at a session with `lastKnownPosition = 58`, a pending
once-handler carrying `58`, and a failing seek. -/
theorem reloadAndResume_recovery_spec_witness :
    reloadAndResume Fixtures.stPos =
      ({ Fixtures.stPos with
          consecutiveReloadAttempts := Fixtures.stPos.consecutiveReloadAttempts + 1
          pendingOnceResume := some (if Fixtures.stPos.lastKnownPosition = 0 then 0
            else Fixtures.stPos.lastKnownPosition) },
       [Cmd.throttleCancel, Cmd.loadCurrentItemConfig]) ∧
    step Fixtures.pA Fixtures.stPend PEvent.playlistItemReady =
      ({ Fixtures.stPend with pendingOnceResume := none },
       Cmd.play :: (if (58 : Int) > 0 then [Cmd.delaySeek 58 250] else [])) ∧
    (seekSettleCallback 58 (Except.error "seek threw")).isOk = true ∧
    seekSettleCallback 58 (Except.ok ()) = Except.ok [Cmd.seek 58] := by
  obtain ⟨h1, h2, h3, h4⟩ := reloadAndResume_recovery_spec Fixtures.pA
  exact ⟨h1 Fixtures.stPos (by decide), h2 Fixtures.stPend 58 rfl,
    h3 58 (Except.error "seek threw"), h4 58⟩

/-- C6: when the current playlist index is in range, the initial seek has been
applied and the last-played index equals the current index,
`updateLocalMediaLocation` sets the item field `latest_media_location` to
`location = 0` when `position = duration` and to `location = position`
otherwise (creating the record if absent); in every other case — including an
out-of-range index — the call returns the playlist unchanged (and, being a
total function, never throws). -/
theorem updateLocalMediaLocation_spec :
    (∀ (playlist : List Video) (idx : Nat) (h : idx < playlist.length)
        (position duration : Int),
      updateLocalMediaLocation playlist idx true (some idx) position duration =
        playlist.set idx
          { playlist[idx] with
            latest_media_location :=
              some { location := if position = duration then 0 else position } }) ∧
    (∀ (playlist : List Video) (idx : Nat) (sd : Bool) (lp : Option Nat)
        (position duration : Int),
      ¬(idx < playlist.length ∧ sd = true ∧ lp = some idx) →
      updateLocalMediaLocation playlist idx sd lp position duration = playlist) := by
  refine ⟨?_, ?_⟩
  · intro playlist idx h position duration
    unfold updateLocalMediaLocation
    rw [List.getElem?_eq_getElem h]
    simp
  · intro playlist idx sd lp position duration h
    unfold updateLocalMediaLocation
    cases hv : playlist[idx]? with
    | none => rfl
    | some v =>
      have hlt : idx < playlist.length := by
        by_contra hc
        rw [List.getElem?_eq_none (Nat.le_of_not_lt hc)] at hv
        exact Option.noConfusion hv
      have hna : ¬(sd = true ∧ lp = some idx) := fun hand => h ⟨hlt, hand.1, hand.2⟩
      simp [hna]

/-- Witness for C6 at a two-item playlist (in-range update at index 0;
out-of-range no-op at index 5). -/
theorem updateLocalMediaLocation_spec_witness :
    updateLocalMediaLocation [Fixtures.vid1, Fixtures.vid2] 0 true (some 0) 58 60 =
      [{ Fixtures.vid1 with latest_media_location := some { location := 58 } },
       Fixtures.vid2] ∧
    updateLocalMediaLocation [Fixtures.vid1, Fixtures.vid2] 5 true (some 5) 58 60 =
      [Fixtures.vid1, Fixtures.vid2] := by
  obtain ⟨h1, h2⟩ := updateLocalMediaLocation_spec
  refine ⟨?_, h2 [Fixtures.vid1, Fixtures.vid2] 5 true (some 5) 58 60 (by simp)⟩
  have := h1 [Fixtures.vid1, Fixtures.vid2] 0 (by simp) 58 60
  rw [this]
  rfl

theorem onVisualQuality_isInitialSeekDone (idx : Nat) (st : SessionState) :
    (onVisualQuality idx st).1.isInitialSeekDone = true := by
  unfold onVisualQuality
  split
  · next hc => exact hc.1
  · rfl

theorem onVisualQuality_lastPlayedId (idx : Nat) (st : SessionState) :
    (onVisualQuality idx st).1.lastPlayedId = st.lastPlayedId := by
  unfold onVisualQuality
  split <;> rfl

/-- C7: on a `play` event for item `i` with `i ≠ lastPlayedId` and the item
present, the watch-started consumption event is sent, `lastPlayedId` is set to
`i` and the initial-seek gate is reset; a `play` event for the item already
recorded as last played sends nothing and changes nothing; and immediately
repeated `play` events never send a second event. -/
theorem watch_started_once_per_activation (p : PlayerParams) :
    (∀ (st : SessionState) (idx : Nat) (v : Video),
      st.playlist[idx]? = some v → st.lastPlayedId ≠ some idx →
      onPlay p idx st =
        ({ st with lastPlayedId := some idx, isInitialSeekDone := false },
         [Cmd.consumption
           { urlRedirectId := p.url_redirect_id
             productFileId := v.external_id
             purchaseId := p.purchase_id }])) ∧
    (∀ (st : SessionState) (idx : Nat), st.lastPlayedId = some idx →
      onPlay p idx st = (st, [])) ∧
    (∀ (st : SessionState) (idx : Nat),
      (onPlay p idx (onPlay p idx st).1).2 = []) := by
  refine ⟨?_, ?_, ?_⟩
  · intro st idx v hv hne
    unfold onPlay
    simp only [hv]
    rw [if_pos hne]
  · intro st idx he
    unfold onPlay
    cases hv : st.playlist[idx]? with
    | none => rfl
    | some v => simp [he]
  · intro st idx
    cases hv : st.playlist[idx]? with
    | none =>
      have h1 : onPlay p idx st = (st, []) := by unfold onPlay; rw [hv]
      rw [h1]
      unfold onPlay
      rw [hv]
    | some v =>
      by_cases he : st.lastPlayedId = some idx
      · have h1 : onPlay p idx st = (st, []) := by
          unfold onPlay; simp only [hv]; rw [if_neg (fun hne => hne he)]
        rw [h1]
        unfold onPlay
        simp only [hv]
        rw [if_neg (fun hne => hne he)]
      · have h1 : (onPlay p idx st).1 =
            { st with lastPlayedId := some idx, isInitialSeekDone := false } := by
          unfold onPlay; simp only [hv]; rw [if_pos he]
        rw [h1]
        unfold onPlay
        rw [show ({ st with lastPlayedId := some idx, isInitialSeekDone := false } :
            SessionState).playlist = st.playlist from rfl]
        simp only [hv]
        rw [if_neg (by simp)]

/-- Witness for C7 at the fresh two-item session playing item 0 for the first
time, then a state already marked as playing item 0. -/
theorem watch_started_once_per_activation_witness :
    onPlay Fixtures.pA 0 Fixtures.st0 =
      ({ Fixtures.st0 with lastPlayedId := some 0, isInitialSeekDone := false },
       [Cmd.consumption
         { urlRedirectId := Fixtures.pA.url_redirect_id
           productFileId := Fixtures.vid1.external_id
           purchaseId := Fixtures.pA.purchase_id }]) ∧
    onPlay Fixtures.pA 0 Fixtures.stPlayed = (Fixtures.stPlayed, []) ∧
    (onPlay Fixtures.pA 0 (onPlay Fixtures.pA 0 Fixtures.st0).1).2 = [] := by
  obtain ⟨h1, h2, h3⟩ := watch_started_once_per_activation Fixtures.pA
  exact ⟨h1 Fixtures.st0 0 Fixtures.vid1 rfl (by simp [Fixtures.st0, initialState]),
    h2 Fixtures.stPlayed 0 rfl, h3 Fixtures.st0 0⟩

/-- C8: a `visualQuality` signal with the initial seek already applied for the
current item activation is a complete no-op; otherwise, when the item has a
recorded location distinct from its content length, exactly one seek to that
location is issued; `isInitialSeekDone` is true after every `visualQuality`
dispatch, so a later signal within the same activation issues no further
seek. -/
theorem initial_seek_once_per_activation :
    (∀ (st : SessionState) (idx : Nat),
      st.isInitialSeekDone = true → st.lastPlayedId = some idx →
      onVisualQuality idx st = (st, [])) ∧
    (∀ (st : SessionState) (idx : Nat) (v : Video) (lml : MediaLocation),
      ¬(st.isInitialSeekDone = true ∧ st.lastPlayedId = some idx) →
      st.playlist[idx]? = some v → v.latest_media_location = some lml →
      v.content_length ≠ some lml.location →
      onVisualQuality idx st =
        ({ st with isInitialSeekDone := true }, [Cmd.seek lml.location])) ∧
    (∀ (st : SessionState) (idx : Nat),
      (onVisualQuality idx st).1.isInitialSeekDone = true) ∧
    (∀ (st : SessionState) (idx : Nat), st.lastPlayedId = some idx →
      onVisualQuality idx ((onVisualQuality idx st).1) =
        ((onVisualQuality idx st).1, [])) := by
  refine ⟨?_, ?_, fun st idx => onVisualQuality_isInitialSeekDone idx st, ?_⟩
  · intro st idx ha hb
    unfold onVisualQuality
    rw [if_pos ⟨ha, hb⟩]
  · intro st idx v lml h hv hl hne
    unfold onVisualQuality
    rw [if_neg h]
    simp only [hv, hl]
    cases hcl : v.content_length with
    | none => rfl
    | some cl =>
      have hlc : lml.location ≠ cl := fun he => hne (hcl.trans (congrArg some he.symm))
      simp [hlc]
  · intro st idx h
    have h1 := onVisualQuality_isInitialSeekDone idx st
    have h2 : (onVisualQuality idx st).1.lastPlayedId = some idx :=
      (onVisualQuality_lastPlayedId idx st).trans h
    unfold onVisualQuality
    rw [if_pos ⟨h1, h2⟩]

/-- Witness for C8: a no-op signal after the seek was applied, a first signal
issuing the one-time seek, the unconditional gate, and the repeat no-op. -/
theorem initial_seek_once_per_activation_witness :
    onVisualQuality 0 Fixtures.stSeekDone = (Fixtures.stSeekDone, []) ∧
    onVisualQuality 0 Fixtures.st0 =
      ({ Fixtures.st0 with isInitialSeekDone := true }, [Cmd.seek 7]) ∧
    (onVisualQuality 0 Fixtures.st0).1.isInitialSeekDone = true ∧
    onVisualQuality 0 ((onVisualQuality 0 Fixtures.stPlayed).1) =
      ((onVisualQuality 0 Fixtures.stPlayed).1, []) := by
  obtain ⟨h1, h2, h3, h4⟩ := initial_seek_once_per_activation
  refine ⟨h1 Fixtures.stSeekDone 0 rfl rfl, ?_, h3 Fixtures.st0 0,
    h4 Fixtures.stPlayed 0 rfl⟩
  have := h2 Fixtures.st0 0 Fixtures.vid1 { location := 7 }
    (by simp [Fixtures.st0, initialState]) rfl rfl (by decide)
  simpa using this

/-- C9: `trackMediaLocation` is a deliberate no-op when `purchase_id` is
absent (anonymous playback); otherwise, when the current item exists, the
reported location is clamped to the known item `content_length` when the raw
position exceeds it, and is the raw position in every other case. -/
theorem trackMediaLocation_clamp_and_anonymous :
    (∀ (p : PlayerParams) (playlist : List Video) (idx : Nat) (position : Int),
      p.purchase_id = none → trackMediaLocation p playlist idx position = none) ∧
    (∀ (p : PlayerParams) (pid : String) (playlist : List Video) (idx : Nat)
        (v : Video) (cl position : Int),
      p.purchase_id = some pid → playlist[idx]? = some v →
      v.content_length = some cl → position > cl →
      trackMediaLocation p playlist idx position =
        some { urlRedirectId := p.url_redirect_id, productFileId := v.external_id,
               purchaseId := pid, location := cl }) ∧
    (∀ (p : PlayerParams) (pid : String) (playlist : List Video) (idx : Nat)
        (v : Video) (position : Int),
      p.purchase_id = some pid → playlist[idx]? = some v →
      (∀ cl, v.content_length = some cl → position ≤ cl) →
      trackMediaLocation p playlist idx position =
        some { urlRedirectId := p.url_redirect_id, productFileId := v.external_id,
               purchaseId := pid, location := position }) := by
  refine ⟨?_, ?_, ?_⟩
  · intro p playlist idx position h
    unfold trackMediaLocation
    rw [h]
  · intro p pid playlist idx v cl position hp hv hc hgt
    unfold trackMediaLocation
    simp only [hp, hv, hc]
    rw [if_pos hgt]
  · intro p pid playlist idx v position hp hv hc
    unfold trackMediaLocation
    simp only [hp, hv]
    cases hcl : v.content_length with
    | none => rfl
    | some cl =>
      have hle : ¬(cl < position) := Int.not_lt.mpr (hc cl hcl)
      simp [hle]

/-- Witness for C9: anonymous no-op; overshoot at `position = 150` past
`content_length = 100` clamped; in-range `position = 50` reported raw. -/
theorem trackMediaLocation_clamp_and_anonymous_witness :
    trackMediaLocation Fixtures.pAnon [Fixtures.vid1] 0 150 = none ∧
    trackMediaLocation Fixtures.pA [Fixtures.vid1] 0 150 =
      some { urlRedirectId := Fixtures.pA.url_redirect_id,
             productFileId := Fixtures.vid1.external_id,
             purchaseId := "purch", location := 100 } ∧
    trackMediaLocation Fixtures.pA [Fixtures.vid1] 0 50 =
      some { urlRedirectId := Fixtures.pA.url_redirect_id,
             productFileId := Fixtures.vid1.external_id,
             purchaseId := "purch", location := 50 } := by
  obtain ⟨h1, h2, h3⟩ := trackMediaLocation_clamp_and_anonymous
  exact ⟨h1 Fixtures.pAnon [Fixtures.vid1] 0 150 rfl,
    h2 Fixtures.pA "purch" [Fixtures.vid1] 0 Fixtures.vid1 100 150 rfl rfl rfl (by decide),
    h3 Fixtures.pA "purch" [Fixtures.vid1] 0 Fixtures.vid1 50 rfl rfl
      (by intro cl hcl; have : (100 : Int) = cl := Option.some.inj hcl; omega)⟩

/-- C10: the watch-started consumption event is dispatched even for anonymous
playback: with `purchase_id = none`, a `play` event activating a new item
still sends `createConsumptionEvent` with `purchaseId = none`, sets
`lastPlayedId` and resets `isInitialSeekDone` — in contrast to position
reports, which are suppressed for anonymous playback. -/
theorem watch_event_sent_when_anonymous :
    (∀ (p : PlayerParams) (st : SessionState) (idx : Nat) (v : Video),
      p.purchase_id = none → st.playlist[idx]? = some v →
      st.lastPlayedId ≠ some idx →
      (onPlay p idx st).2 =
        [Cmd.consumption
          { urlRedirectId := p.url_redirect_id, productFileId := v.external_id,
            purchaseId := none }] ∧
      (onPlay p idx st).1.lastPlayedId = some idx ∧
      (onPlay p idx st).1.isInitialSeekDone = false) ∧
    (∀ (p : PlayerParams) (playlist : List Video) (idx : Nat) (position : Int),
      p.purchase_id = none → trackMediaLocation p playlist idx position = none) := by
  refine ⟨?_, ?_⟩
  · intro p st idx v hp hv hne
    unfold onPlay
    simp only [hv]
    rw [if_pos hne]
    refine ⟨?_, rfl, rfl⟩
    rw [hp]
  · intro p playlist idx position h
    unfold trackMediaLocation
    rw [h]

/-- Witness for C10 at the anonymous params and the fresh two-item session. -/
theorem watch_event_sent_when_anonymous_witness :
    ((onPlay Fixtures.pAnon 0 Fixtures.st0).2 =
      [Cmd.consumption
        { urlRedirectId := Fixtures.pAnon.url_redirect_id,
          productFileId := Fixtures.vid1.external_id, purchaseId := none }] ∧
      (onPlay Fixtures.pAnon 0 Fixtures.st0).1.lastPlayedId = some 0 ∧
      (onPlay Fixtures.pAnon 0 Fixtures.st0).1.isInitialSeekDone = false) ∧
    trackMediaLocation Fixtures.pAnon [Fixtures.vid1] 0 33 = none := by
  obtain ⟨h1, h2⟩ := watch_event_sent_when_anonymous
  exact ⟨h1 Fixtures.pAnon Fixtures.st0 0 Fixtures.vid1 rfl rfl
    (by simp [Fixtures.st0, initialState]), h2 Fixtures.pAnon [Fixtures.vid1] 0 33 rfl⟩

end VideoStreamPlayer

/-!
## C5: the throttled reporter
-/

-- Throttle states used by the C5 witness.
namespace Throttle.Fixtures

/-- A window armed at `0`, pending payload `1`, not yet due at `500`. -/
def sArmed : Throttle.State :=
  { lastArgs := some 1, timerId := some 10000, lastCallTime := some 0, lastInvokeTime := 0 }

/-- A window whose timer is due at its scheduled fire time `10000`. -/
def sDue : Throttle.State :=
  { lastArgs := some 2, timerId := some 10000, lastCallTime := some 500, lastInvokeTime := 0 }

end Throttle.Fixtures

/-- C5 counterexample: the reporter is lodash `throttle` with its default
leading edge, so it is not trailing-edge-only.  A call at `t = 0` followed by
`cancel` at `t = 1` still produced one emission — not zero — and in the trace
`call@0, call@5001, fire@10000, call@15001` the emissions at `10000` and
`15001` are two emissions within a single 10000 ms window. -/
theorem throttle_trailing_only_cex :
    (Throttle.runT Throttle.initial
        [Throttle.TEvent.call 0 5, Throttle.TEvent.cancel]).2 = [(0, 5)] ∧
    (Throttle.runT Throttle.initial
        [Throttle.TEvent.call 0 1, Throttle.TEvent.call 5001 2,
         Throttle.TEvent.fire 10000, Throttle.TEvent.call 15001 3]).2 =
      [(0, 1), (10000, 2), (15001, 3)] ∧
    (15001 : Int) - 10000 < Throttle.wait := by
  refine ⟨rfl, rfl, by decide⟩

/-- C5 amended: the reporter has the lodash throttle default leading+trailing
semantics: a due call with no armed timer emits immediately with its own
position and arms the trailing window; a not-yet-due call emits nothing and
replaces the pending payload (most recent wins); the timer firing at its
scheduled time, when due, emits the stored most recent position and disarms;
and `cancel` emits nothing and discards the pending trailing emission, so no
firing after a cancel emits. -/
theorem throttle_leading_trailing_spec :
    (∀ (s : Throttle.State) (t pos : Int), s.timerId = none →
      Throttle.shouldInvoke s t = true →
      (Throttle.call t pos s).2 = [(t, pos)] ∧
      (Throttle.call t pos s).1.timerId = some (t + Throttle.wait)) ∧
    (∀ (s : Throttle.State) (t pos : Int), Throttle.shouldInvoke s t = false →
      (Throttle.call t pos s).2 = [] ∧
      (Throttle.call t pos s).1.lastArgs = some pos) ∧
    (∀ (s : Throttle.State) (t pos : Int), s.timerId = some t →
      Throttle.shouldInvoke s t = true → s.lastArgs = some pos →
      (Throttle.fire t s).2 = [(t, pos)] ∧ (Throttle.fire t s).1.timerId = none) ∧
    (∀ s : Throttle.State, (Throttle.cancel s).2 = [] ∧
      ∀ t : Int, (Throttle.fire t (Throttle.cancel s).1).2 = []) := by
  refine ⟨?_, ?_, ?_, ?_⟩
  · intro s t pos h1 h2
    unfold Throttle.call
    simp [Throttle.leadingEdge, Throttle.invokeFunc, h1, h2]
  · intro s t pos h
    unfold Throttle.call
    cases ht : s.timerId <;> simp [h, ht]
  · intro s t pos h1 h2 h3
    unfold Throttle.fire
    simp [Throttle.trailingEdge, Throttle.invokeFunc, h1, h2, h3]
  · intro s
    refine ⟨rfl, fun t => ?_⟩
    unfold Throttle.fire
    rw [if_neg (by simp [Throttle.cancel])]

/-- Witness for the amended C5 claim at concrete throttle states: a leading
emission from the fresh state, coalescing at `t = 500`, the due trailing fire
at `t = 10000`, and a post-cancel fire at `t = 3`. -/
theorem throttle_leading_trailing_spec_witness :
    ((Throttle.call 0 5 Throttle.initial).2 = [(0, 5)] ∧
      (Throttle.call 0 5 Throttle.initial).1.timerId = some (0 + Throttle.wait)) ∧
    ((Throttle.call 500 7 Throttle.Fixtures.sArmed).2 = [] ∧
      (Throttle.call 500 7 Throttle.Fixtures.sArmed).1.lastArgs = some 7) ∧
    ((Throttle.fire 10000 Throttle.Fixtures.sDue).2 = [(10000, 2)] ∧
      (Throttle.fire 10000 Throttle.Fixtures.sDue).1.timerId = none) ∧
    ((Throttle.cancel Throttle.Fixtures.sDue).2 = [] ∧
      (Throttle.fire 3 (Throttle.cancel Throttle.Fixtures.sDue).1).2 = []) := by
  obtain ⟨h1, h2, h3, h4⟩ := throttle_leading_trailing_spec
  exact ⟨h1 Throttle.initial 0 5 rfl rfl,
    h2 Throttle.Fixtures.sArmed 500 7 (by decide),
    h3 Throttle.Fixtures.sDue 10000 2 rfl (by decide) rfl,
    (h4 Throttle.Fixtures.sDue).1, (h4 Throttle.Fixtures.sDue).2 3⟩
